import Mathlib

/-!
Shallow embedding of `tasks.py` from the robocorp-L2-certification robot:
a linear pipeline that downloads a CSV of orders, drives a browser form per
order, captures receipt/robot screenshots, composes per-order PDFs, and zips
the orders directory.

Filesystem paths are modelled as lists of components (a `FPath("a/b")` style
string is normalised by dropping empty and `"."` components, mirroring how
the OS resolves `./output/orders/` and `output/orders` to the same
directory).  Browser state is an abstract `Page`: which selectors resolve to
elements, whether the modal header is visible, the visibility of the
`.alert-danger` banner at successive checks, and whether a screenshot call
actually leaves a file on disk.  Every side-effecting Python function
becomes a Lean function threading an explicit filesystem and emitting a
trace of UI events; exceptions become an `Err` value carried next to the
state.  The unbounded `while` retry loop is modelled with fuel: exhausting
any amount of fuel models non-termination.
-/

abbrev FPath := List String

/-- Split a character list at `/` boundaries. -/
def splitSlash : List Char → List (List Char)
  | [] => [[]]
  | c :: rest =>
    match splitSlash rest with
    | [] => [[]]
    | comp :: comps =>
      if c = '/' then [] :: comp :: comps else (c :: comp) :: comps

/-- Normalise a path string the way the OS resolves it: split on `/`,
drop empty components and `"."` (so `./output/orders/` ↦ `output/orders`). -/
def pathOf (s : String) : FPath :=
  ((splitSlash s.data).map (fun cs => String.mk cs)).filter
    (fun c => c != "" && c != ".")

/-- Constant `FILE_NAME = "orders.csv"` (tasks.py line 14). -/
def FILE_NAME : String := "orders.csv"

/-- Constant `CSV_URL` (tasks.py line 15). -/
def CSV_URL : String := "https://robotsparebinindustries.com/" ++ FILE_NAME

/-- Constant `OUTPUT_DIR = Path(os.getenv("ROBOT_ARTIFACTS", "output"))` (line 16):
the configurable output root, parameterised by the environment variable. -/
def OUTPUT_DIR (env : Option String) : FPath :=
  pathOf (env.getD "output")

/-- Constant `CURDIR = Path(__file__).parent` (line 17): the directory holding the
source file, an opaque location distinct from the repository outputs. -/
def CURDIR : FPath := ["__file__parent"]

/-- Constant `ORDERS_DIR = OUTPUT_DIR / "orders"` (line 18). -/
def ORDERS_DIR (env : Option String) : FPath :=
  OUTPUT_DIR env ++ ["orders"]

/-- Contents a file can have in this model. -/
inductive FileContent
  | png (selector : String)
  | pdfOf (sources : List FPath)
  | csvData
  | zipOf (members : List FPath)
  deriving DecidableEq, Repr

/-- The filesystem: regular files with contents, plus the set of
directories that have been created. -/
structure FS where
  entries : List (FPath × FileContent)
  dirs : List FPath
  deriving DecidableEq, Repr

def FS.empty : FS := ⟨[], []⟩

/-- The paths of the regular files present. -/
def FS.files (fs : FS) : List FPath := fs.entries.map Prod.fst

/-- Write (create or overwrite) a regular file. -/
def FS.write (fs : FS) (p : FPath) (c : FileContent) : FS :=
  ⟨fs.entries.filter (fun e => e.1 ≠ p) ++ [(p, c)], fs.dirs⟩

/-- Models `mkdir(exist_ok=True)`. -/
def FS.mkdir (fs : FS) (p : FPath) : FS :=
  ⟨fs.entries, if p ∈ fs.dirs then fs.dirs else fs.dirs ++ [p]⟩

/-- The nonempty prefixes of a path, shortest first. -/
def prefixesOf (p : FPath) : List FPath :=
  (List.range p.length).map (fun i => p.take (i + 1))

/-- Models `mkdir(parents=True, exist_ok=True)`: create the directory and all its
ancestors. -/
def FS.mkdirParents (fs : FS) (p : FPath) : FS :=
  (prefixesOf p).foldl FS.mkdir fs

def FS.isFile (fs : FS) (p : FPath) : Bool :=
  fs.files.contains p

/-- Look up a file's content. -/
def FS.lookup (fs : FS) (p : FPath) : Option FileContent :=
  (fs.entries.find? (fun e => e.1 = p)).map Prod.snd

/-- The files strictly below directory `d`. -/
def FS.filesUnder (fs : FS) (d : FPath) : List FPath :=
  fs.files.filter (fun p => d.isPrefixOf p && p != d)

/-- Browser UI interactions, recorded as a trace. -/
inductive UIEvent
  | goto (url : String)
  | clickLink (name : String)
  | clickButton (name : String)
  | clickSel (selector : String)
  | selectOpt (selector value : String)
  | fillField (placeholder value : String)
  | screenshotEl (selector : String) (path : FPath)
  deriving DecidableEq, Repr

/-- Python exceptions surfacing in the pipeline, plus a marker recording
that the unbounded submit-retry loop exhausted its fuel (modelling
non-termination: no fuel bound suffices). -/
inductive Err
  | httpError (status : Nat)
  | valueError
  | fileNotFoundError
  | timeoutError (selector : String)
  | retryLoopHungForever
  deriving DecidableEq, Repr

/-- The abstract state of the web page, as the automation observes it. -/
structure Page where
  /-- is_visible(".modal-header") at the start of an order. -/
  modalVisible : Bool
  /-- Which selectors resolve to an element in the DOM. -/
  hasElement : String → Bool
  /-- Whether a successful screenshot call leaves the file on disk
  (`False` models the silent capture failure the code defends against). -/
  screenshotWrites : Bool
  /-- Visibility of ".alert-danger" at the k-th check after submission. -/
  banner : Nat → Bool

/-- A Playwright locator handle: `page.locator(sel)` merely records the
selector and never touches the DOM. -/
structure Locator where
  selector : String

def Page.locator (_pg : Page) (sel : String) : Locator := ⟨sel⟩

/-- Python truthiness of a `Locator` object: the class defines neither
`__bool__` nor `__len__`, so the object is always truthy. -/
def pyTruthy (_l : Locator) : Bool := true

/-- Models `requests.get` + `response.raise_for_status()` + the body write
(tasks.py lines 190-209).  `raise_for_status` raises for 4xx/5xx. -/
def download_file (status : Nat) (target_dir : FPath) (target_filename : String)
    (fs : FS) : FS × Except Err FPath :=
  if 400 ≤ status ∧ status < 600 then
    (fs, .error (.httpError status))
  else
    let fs := fs.mkdir target_dir
    let local_file := target_dir ++ [target_filename]
    (fs.write local_file .csvData, .ok local_file)

/-- One CSV row projected onto the five named columns
(`Order number, Head, Body, Legs, Address`); fields are the CSV's text. -/
structure Order where
  order_number : String
  head : String
  body : String
  legs : String
  address : String
  deriving DecidableEq, Repr

/-- Function `get_orders` (lines 154-170): download the CSV into `CURDIR`, then parse
it.  `rows` is the parsed table content carried abstractly: the model takes
the CSV's rows as an input rather than re-implementing the CSV reader. -/
def get_orders (status : Nat) (rows : List Order) (fs : FS) :
    FS × Except Err (List Order) :=
  match download_file status CURDIR FILE_NAME fs with
  | (fs, .error e) => (fs, .error e)
  | (fs, .ok _csv_file) => (fs, .ok rows)

def set_head (head : String) : UIEvent :=
  .selectOpt "select#head.custom-select" head

def set_body (body : String) : UIEvent :=
  .clickSel ("#id-body-" ++ body)

def set_legs (legs : String) : UIEvent :=
  .fillField "Enter the part number" legs

def set_address (address : String) : UIEvent :=
  .fillField "Shipping address" address

/-- Function `fill_the_form` (lines 115-131): head, body, legs, address, in order. -/
def fill_the_form (o : Order) : List UIEvent :=
  [set_head o.head, set_body o.body, set_legs o.legs, set_address o.address]

/-- Function `submit_order` (lines 134-135). -/
def submit_order : UIEvent := .clickButton "Order"

/-- Function `create_new_order` (lines 46-47). -/
def create_new_order : UIEvent := .clickButton "Order another robot"

/-- Function `close_annoying_modal` (lines 110-112): click OK only when the modal
header is visible. -/
def close_annoying_modal (pg : Page) : List UIEvent :=
  if pg.modalVisible then [.clickButton "OK"] else []

/-- Function `open_robot_order_website` (lines 96-103): configure + goto. -/
def open_robot_order_website : List UIEvent :=
  [.goto "https://robotsparebinindustries.com/"]

/-- Function `go_to_order_page` (lines 106-107). -/
def go_to_order_page : List UIEvent :=
  [.clickLink "Order your robot!"]

/-- Models `locator(sel).screenshot(path=...)`: waits for the element; if absent the
call times out; if present, the capture normally writes the file (a silent
capture failure leaves the disk untouched). -/
def screenshotLocator (pg : Page) (sel : String) (path : FPath) (fs : FS) :
    FS × List UIEvent × Except Err Unit :=
  if pg.hasElement sel then
    (if pg.screenshotWrites then fs.write path (.png sel) else fs,
     [.screenshotEl sel path], .ok ())
  else
    (fs, [], .error (.timeoutError sel))

/-- Function `screenshot_robot` (lines 92-93). -/
def screenshot_robot (pg : Page) (robot_file : FPath) (fs : FS) :
    FS × List UIEvent × Except Err Unit :=
  screenshotLocator pg "#robot-preview-image" robot_file fs

/-- Function `store_receipt_as_pdf` (lines 50-89).  The walrus test
`if receipt_element := page.locator("#receipt")` checks Python truthiness of
the locator object. -/
def store_receipt_as_pdf (env : Option String) (pg : Page) (fs : FS)
    (order_number : String) : FS × List UIEvent × Except Err FPath :=
  let pdf_file := ORDERS_DIR env ++ ["order_" ++ order_number ++ ".pdf"]
  let fs := fs.mkdirParents (OUTPUT_DIR env)
  let receipt_file := OUTPUT_DIR env ++ ["receipt_" ++ order_number ++ ".png"]
  let robot_file := OUTPUT_DIR env ++ ["robot_" ++ order_number ++ ".png"]
  let receipt_element := pg.locator "#receipt"
  if pyTruthy receipt_element then
    match screenshotLocator pg "#receipt" receipt_file fs with
    | (fs, tr₁, .error e) => (fs, tr₁, .error e)
    | (fs, tr₁, .ok _) =>
      match screenshot_robot pg robot_file fs with
      | (fs, tr₂, .error e) => (fs, tr₁ ++ tr₂, .error e)
      | (fs, tr₂, .ok _) =>
        let list_of_files := [receipt_file, robot_file]
        if fs.isFile receipt_file then
          (fs.write pdf_file (.pdfOf list_of_files), tr₁ ++ tr₂, .ok pdf_file)
        else
          (fs, tr₁ ++ tr₂, .error .fileNotFoundError)
  else
    (fs, [], .error .valueError)

/-- The `while page.is_visible(".alert-danger"): submit_order(page)` loop
(lines 39-40), with fuel counting visibility checks.  Returns the submit
clicks emitted and whether the loop exited (banner no longer visible). -/
def submitRetryLoop (visible : Nat → Bool) (k : Nat) :
    Nat → List UIEvent × Bool
  | 0 => ([], false)
  | fuel + 1 =>
    if visible k then
      let r := submitRetryLoop visible (k + 1) fuel
      (submit_order :: r.1, r.2)
    else
      ([], true)

/-- Whether the retry loop exits within `fuel` visibility checks. -/
def clearsWithin (visible : Nat → Bool) (fuel : Nat) : Bool :=
  (submitRetryLoop visible 0 fuel).2

/-- The body of the per-order `for` loop (lines 35-42): dismiss modal, fill,
submit, retry while the error banner is visible, capture the receipt,
reset the form. -/
def processOrder (env : Option String) (pg : Page) (fuel : Nat) (fs : FS)
    (o : Order) : FS × List UIEvent × Except Err Unit :=
  let loopR := submitRetryLoop pg.banner 0 fuel
  let preTr := close_annoying_modal pg ++ fill_the_form o ++
    [submit_order] ++ loopR.1
  if loopR.2 then
    match store_receipt_as_pdf env pg fs o.order_number with
    | (fs, capTr, .ok _pdf) => (fs, preTr ++ capTr ++ [create_new_order], .ok ())
    | (fs, capTr, .error e) => (fs, preTr ++ capTr, .error e)
  else
    (fs, preTr, .error .retryLoopHungForever)

/-- The `for order in orders` loop, pages indexed per order. -/
def runOrders (env : Option String) (pages : Nat → Page) (fuel : Nat) :
    List Order → Nat → FS → FS × List UIEvent × Except Err Unit
  | [], _, fs => (fs, [], .ok ())
  | o :: rest, i, fs =>
    match processOrder env (pages i) fuel fs o with
    | (fs, tr, .error e) => (fs, tr, .error e)
    | (fs, tr, .ok _) =>
      let r := runOrders env pages fuel rest (i + 1) fs
      (r.1, tr ++ r.2.1, r.2.2)

/-- Function `archive_receipts` (lines 173-187): zip the contents of the literal
`"./output/orders/"` folder into `f"{OUTPUT_DIR}/receipts.zip"`. -/
def archive_receipts (env : Option String) (fs : FS) : FS :=
  fs.write (OUTPUT_DIR env ++ ["receipts.zip"])
    (.zipOf (fs.filesUnder (pathOf "./output/orders/")))

/-- Module import time (line 19): `ORDERS_DIR.mkdir(parents=True,
exist_ok=True)` runs before the task body. -/
def moduleInit (env : Option String) (fs : FS) : FS :=
  fs.mkdirParents (ORDERS_DIR env)

/-- The task `order_robots_from_RobotSpareBin` (lines 22-43), including the
module-level directory creation.  Inputs: the environment variable, the HTTP
status of the CSV download, the parsed CSV rows, the page behaviour for each
order, and fuel for the retry loop. -/
def order_robots_from_RobotSpareBin (env : Option String) (status : Nat)
    (rows : List Order) (pages : Nat → Page) (fuel : Nat) :
    FS × List UIEvent × Except Err Unit :=
  let fs := moduleInit env FS.empty
  match get_orders status rows fs with
  | (fs, .error e) => (fs, [], .error e)
  | (fs, .ok orders) =>
    let openTr := open_robot_order_website ++ go_to_order_page
    match runOrders env pages fuel orders 0 fs with
    | (fs, tr, .error e) => (fs, openTr ++ tr, .error e)
    | (fs, tr, .ok _) => (archive_receipts env fs, openTr ++ tr, .ok ())

/-! ### Derived path abbreviations used throughout the proofs -/

/-- Path `OUTPUT_DIR / receipt_<order_number>.png` (line 72). -/
def receiptPath (env : Option String) (n : String) : FPath :=
  OUTPUT_DIR env ++ ["receipt_" ++ n ++ ".png"]

/-- Path `OUTPUT_DIR / robot_<order_number>.png` (line 73). -/
def robotPath (env : Option String) (n : String) : FPath :=
  OUTPUT_DIR env ++ ["robot_" ++ n ++ ".png"]

/-- Path `ORDERS_DIR / order_<order_number>.pdf` (line 68). -/
def pdfPath (env : Option String) (n : String) : FPath :=
  ORDERS_DIR env ++ ["order_" ++ n ++ ".pdf"]

/-- The filesystem left by a successful `store_receipt_as_pdf` call. -/
def storeResultFS (env : Option String) (fs : FS) (n : String) : FS :=
  (((fs.mkdirParents (OUTPUT_DIR env)).write (receiptPath env n)
      (.png "#receipt")).write (robotPath env n)
      (.png "#robot-preview-image")).write (pdfPath env n)
      (.pdfOf [receiptPath env n, robotPath env n])

/-- A page where everything behaves: no modal, every selector resolves,
screenshots land on disk, the error banner never shows. -/
def defaultPage : Page :=
  { modalVisible := false, hasElement := fun _ => true,
    screenshotWrites := true, banner := fun _ => false }

/-! ### Basic lemmas about the filesystem model -/

theorem foldl_mkdir_entries (l : List FPath) (fs : FS) :
    (l.foldl FS.mkdir fs).entries = fs.entries := by
  induction l generalizing fs with
  | nil => rfl
  | cons q t ih => simpa [List.foldl] using ih (fs.mkdir q)

theorem FS.entries_mkdirParents (fs : FS) (p : FPath) :
    (fs.mkdirParents p).entries = fs.entries :=
  foldl_mkdir_entries (prefixesOf p) fs

theorem FS.files_mkdirParents (fs : FS) (p : FPath) :
    (fs.mkdirParents p).files = fs.files := by
  simp [FS.files, FS.entries_mkdirParents]

theorem map_fst_filter_ne (l : List (FPath × FileContent)) (p : FPath) :
    (l.filter (fun e => e.1 ≠ p)).map Prod.fst =
      (l.map Prod.fst).filter (fun q => q ≠ p) := by
  induction l with
  | nil => rfl
  | cons a t ih =>
    simp only [List.filter_cons, List.map_cons, ne_eq, decide_not] at ih ⊢
    by_cases h : a.1 = p
    · simp [h, ih]
    · simp [h, ih]

theorem FS.files_write (fs : FS) (p : FPath) (c : FileContent) :
    (fs.write p c).files = fs.files.filter (fun q => q ≠ p) ++ [p] := by
  simp only [FS.write, FS.files, List.map_append]
  rw [map_fst_filter_ne]
  simp

theorem FS.mem_files_write {fs : FS} {p q : FPath} {c : FileContent} :
    q ∈ (fs.write p c).files ↔ (q ∈ fs.files ∧ q ≠ p) ∨ q = p := by
  simp [FS.files_write, List.mem_filter, or_comm]

theorem find?_append_none {α : Type} (pred : α → Bool) (l₁ l₂ : List α)
    (h : ∀ x ∈ l₁, pred x = false) :
    (l₁ ++ l₂).find? pred = l₂.find? pred := by
  induction l₁ with
  | nil => rfl
  | cons a t ih =>
    have ha := h a (by simp)
    simp only [List.cons_append, List.find?_cons, ha]
    exact ih (fun x hx => h x (by simp [hx]))

theorem FS.lookup_write_self (fs : FS) (p : FPath) (c : FileContent) :
    (fs.write p c).lookup p = some c := by
  simp only [FS.write, FS.lookup]
  rw [find?_append_none]
  · simp [List.find?_cons]
  · intro x hx
    have hx2 := (List.mem_filter.mp hx).2
    simp only [ne_eq, decide_not, Bool.not_eq_true', decide_eq_false_iff_not] at hx2
    simpa using hx2

theorem FS.isFile_iff {fs : FS} {p : FPath} :
    fs.isFile p = true ↔ p ∈ fs.files := by
  simp [FS.isFile, List.contains]

theorem underCond_iff (d p : FPath) :
    (d.isPrefixOf p && p != d) = true ↔ (d <+: p ∧ p ≠ d) := by
  simp [List.isPrefixOf_iff_prefix, Bool.and_eq_true, bne_iff_ne]

theorem FS.filesUnder_subset {fs : FS} {d q : FPath}
    (h : q ∈ fs.filesUnder d) : q ∈ fs.files :=
  (List.mem_filter.mp h).1

theorem FS.filesUnder_mkdirParents (fs : FS) (p d : FPath) :
    (fs.mkdirParents p).filesUnder d = fs.filesUnder d := by
  simp [FS.filesUnder, FS.files_mkdirParents]

theorem FS.filesUnder_write (fs : FS) (p : FPath) (c : FileContent)
    (d : FPath) :
    (fs.write p c).filesUnder d =
      (fs.filesUnder d).filter (fun q => q ≠ p) ++
        (if d.isPrefixOf p && p != d then [p] else []) := by
  simp only [FS.filesUnder, FS.files_write, List.filter_append]
  rw [List.filter_filter, List.filter_filter]
  congr 1
  · congr 1
    funext q
    exact Bool.and_comm _ _
  · by_cases h : (d.isPrefixOf p && p != d) = true <;>
      simp [List.filter_cons, h]

theorem FS.filesUnder_write_not_under {fs : FS} {p d : FPath}
    {c : FileContent} (h : ¬ (d <+: p ∧ p ≠ d)) :
    (fs.write p c).filesUnder d = fs.filesUnder d := by
  rw [FS.filesUnder_write]
  have hb : (d.isPrefixOf p && p != d) = false := by
    rcases Bool.eq_false_or_eq_true (d.isPrefixOf p && p != d) with hb | hb
    · exact absurd ((underCond_iff d p).mp hb) h
    · exact hb
  rw [hb]
  simp only [Bool.false_eq_true, if_false, List.append_nil]
  apply List.filter_eq_self.mpr
  intro q hq
  have hq' := (List.mem_filter.mp hq).2
  have hu := (underCond_iff d q).mp hq'
  have : q ≠ p := by
    intro he
    exact h (he ▸ hu)
  simpa using this

/-! ### Path disjointness lemmas -/

theorem append_one_ne_append_two (l : FPath) (a b c : String) :
    l ++ [a] ≠ l ++ [b, c] := by
  intro h
  have hl := congrArg List.length h
  simp at hl

theorem append_last_inj {l : FPath} {a b : String}
    (h : l ++ [a] = l ++ [b]) : a = b := by
  have := List.append_cancel_left h
  simpa using this

theorem receipt_ne_robot_str (n m : String) (h : n.length = m.length) :
    "receipt_" ++ n ++ ".png" ≠ "robot_" ++ m ++ ".png" := by
  intro he
  have hl := congrArg String.length he
  have e1 : ("receipt_" : String).length = 8 := rfl
  have e2 : ("robot_" : String).length = 6 := rfl
  have e3 : (".png" : String).length = 4 := rfl
  rw [String.length_append, String.length_append, String.length_append,
    String.length_append, e1, e2, e3] at hl
  omega

theorem order_pdf_name_inj {a b : String}
    (h : "order_" ++ a ++ ".pdf" = "order_" ++ b ++ ".pdf") : a = b := by
  have hd := congrArg String.data h
  rw [String.data_append, String.data_append, String.data_append,
    String.data_append] at hd
  exact String.ext (List.append_cancel_left (List.append_cancel_right hd))

theorem receiptPath_ne_robotPath (env : Option String) (n : String) :
    receiptPath env n ≠ robotPath env n := by
  intro h
  exact receipt_ne_robot_str n n rfl (append_last_inj h)

theorem pdfPath_inj {env : Option String} {a b : String}
    (h : pdfPath env a = pdfPath env b) : a = b := by
  unfold pdfPath ORDERS_DIR at h
  rw [List.append_assoc, List.append_assoc] at h
  have h2 := List.append_cancel_left h
  have h3 : ("orders" :: ["order_" ++ a ++ ".pdf"] : List String) =
      "orders" :: ["order_" ++ b ++ ".pdf"] := by simpa using h2
  have h4 : "order_" ++ a ++ ".pdf" = "order_" ++ b ++ ".pdf" := by
    simpa using h3
  exact order_pdf_name_inj h4

theorem pdfPath_ne_receiptPath (env : Option String) (a b : String) :
    pdfPath env a ≠ receiptPath env b := by
  unfold pdfPath receiptPath ORDERS_DIR
  rw [List.append_assoc]
  intro h
  exact append_one_ne_append_two (OUTPUT_DIR env) _ _ _ h.symm

theorem pdfPath_ne_robotPath (env : Option String) (a b : String) :
    pdfPath env a ≠ robotPath env b := by
  unfold pdfPath robotPath ORDERS_DIR
  rw [List.append_assoc]
  intro h
  exact append_one_ne_append_two (OUTPUT_DIR env) _ _ _ h.symm

/-- A path directly inside `OUTPUT_DIR` whose single trailing component is
not `"orders"` is not strictly below `ORDERS_DIR`. -/
theorem not_under_orders_of_single (env : Option String) (s : String)
    (hs : s ≠ "orders") :
    ¬ (ORDERS_DIR env <+: OUTPUT_DIR env ++ [s] ∧
       OUTPUT_DIR env ++ [s] ≠ ORDERS_DIR env) := by
  rintro ⟨⟨t, ht⟩, _⟩
  unfold ORDERS_DIR at ht
  rw [List.append_assoc] at ht
  have h2 := List.append_cancel_left ht
  cases t with
  | nil => exact hs (by simpa using h2.symm)
  | cons x xs =>
    have hl := congrArg List.length h2
    simp at hl

theorem receipt_name_ne_orders (n : String) :
    "receipt_" ++ n ++ ".png" ≠ "orders" := by
  intro h
  have hl := congrArg String.length h
  have e1 : ("receipt_" : String).length = 8 := rfl
  have e3 : (".png" : String).length = 4 := rfl
  rw [String.length_append, String.length_append, e1, e3] at hl
  have : ("orders" : String).length = 6 := rfl
  omega

theorem robot_name_ne_orders (n : String) :
    "robot_" ++ n ++ ".png" ≠ "orders" := by
  intro h
  have hl := congrArg String.length h
  have e1 : ("robot_" : String).length = 6 := rfl
  have e3 : (".png" : String).length = 4 := rfl
  rw [String.length_append, String.length_append, e1, e3] at hl
  have : ("orders" : String).length = 6 := rfl
  omega

/-- The CSV landing spot `CURDIR / FILE_NAME`. -/
def csvPath : FPath := CURDIR ++ [FILE_NAME]

/-- No per-order PDF path ever coincides with the CSV's landing spot. -/
theorem pdfPath_ne_csvPath (env : Option String) (n : String) :
    pdfPath env n ≠ csvPath := by
  unfold pdfPath ORDERS_DIR csvPath CURDIR FILE_NAME
  rw [List.append_assoc]
  intro h
  have hl := congrArg List.length h
  simp at hl
  rw [hl] at h
  simp at h

/-- Directory `ORDERS_DIR` is never an ancestor of the CSV's landing spot, whatever
the output root is. -/
theorem orders_dir_not_prefix_csv (env : Option String) :
    ¬ (ORDERS_DIR env <+: csvPath ∧ csvPath ≠ ORDERS_DIR env) := by
  rintro ⟨⟨t, ht⟩, _⟩
  unfold ORDERS_DIR csvPath CURDIR FILE_NAME at ht
  rw [List.append_assoc] at ht
  have hl := congrArg List.length ht
  simp at hl
  rcases Nat.le_one_iff_eq_zero_or_eq_one.mp
    (by omega : (OUTPUT_DIR env).length ≤ 1) with h0 | h1
  · rw [List.length_eq_zero.mp h0] at ht
    simp at ht
  · rcases List.length_eq_one.mp h1 with ⟨a, ha⟩
    rw [ha] at ht hl
    simp at hl
    have ht0 : t = [] := List.length_eq_zero.mp (by omega)
    rw [ht0] at ht
    simp at ht

/-! ### Behaviour of `store_receipt_as_pdf` -/

/-- In the success scenario (both elements present, screenshots land on
disk), `store_receipt_as_pdf` writes the two screenshots and the composed
PDF, and returns the per-order PDF path. -/
theorem store_receipt_ok (env : Option String) (pg : Page) (fs : FS)
    (n : String) (h1 : pg.hasElement "#receipt" = true)
    (h2 : pg.hasElement "#robot-preview-image" = true)
    (h3 : pg.screenshotWrites = true) :
    store_receipt_as_pdf env pg fs n =
      (storeResultFS env fs n,
       [.screenshotEl "#receipt" (receiptPath env n),
        .screenshotEl "#robot-preview-image" (robotPath env n)],
       .ok (pdfPath env n)) := by
  have hfile :
      (((fs.mkdirParents (OUTPUT_DIR env)).write
          (OUTPUT_DIR env ++ ["receipt_" ++ n ++ ".png"]) (.png "#receipt")).write
          (OUTPUT_DIR env ++ ["robot_" ++ n ++ ".png"])
          (.png "#robot-preview-image")).isFile
        (OUTPUT_DIR env ++ ["receipt_" ++ n ++ ".png"]) = true := by
    rw [FS.isFile_iff, FS.mem_files_write]
    left
    refine ⟨?_, receiptPath_ne_robotPath env n⟩
    rw [FS.mem_files_write]
    right
    rfl
  unfold store_receipt_as_pdf screenshot_robot
  simp only [screenshotLocator, pyTruthy, if_true, h1, h2, h3]
  simp only [hfile, if_true]
  rfl

theorem pdfPath_under_orders (env : Option String) (n : String) :
    ((ORDERS_DIR env).isPrefixOf (pdfPath env n) &&
      pdfPath env n != ORDERS_DIR env) = true := by
  rw [underCond_iff]
  constructor
  · exact ⟨["order_" ++ n ++ ".pdf"], rfl⟩
  · intro h
    have := congrArg List.length h
    simp [pdfPath, ORDERS_DIR] at this

theorem receiptPath_not_under_orders (env : Option String) (n : String) :
    ¬ (ORDERS_DIR env <+: receiptPath env n ∧
       receiptPath env n ≠ ORDERS_DIR env) :=
  not_under_orders_of_single env _ (receipt_name_ne_orders n)

theorem robotPath_not_under_orders (env : Option String) (n : String) :
    ¬ (ORDERS_DIR env <+: robotPath env n ∧
       robotPath env n ≠ ORDERS_DIR env) :=
  not_under_orders_of_single env _ (robot_name_ne_orders n)

theorem storeResultFS_filesUnder (env : Option String) (fs : FS) (n : String)
    (hfresh : pdfPath env n ∉ fs.files) :
    (storeResultFS env fs n).filesUnder (ORDERS_DIR env) =
      fs.filesUnder (ORDERS_DIR env) ++ [pdfPath env n] := by
  unfold storeResultFS
  rw [FS.filesUnder_write, pdfPath_under_orders, if_pos rfl,
    FS.filesUnder_write_not_under (robotPath_not_under_orders env n),
    FS.filesUnder_write_not_under (receiptPath_not_under_orders env n),
    FS.filesUnder_mkdirParents]
  congr 1
  apply List.filter_eq_self.mpr
  intro q hq
  have hqf := FS.filesUnder_subset hq
  have : q ≠ pdfPath env n := fun he => hfresh (he ▸ hqf)
  simpa using this

theorem storeResultFS_files_mem (env : Option String) (fs : FS) (n : String)
    (q : FPath) (hq : q ∉ fs.files) (hr : q ≠ receiptPath env n)
    (hb : q ≠ robotPath env n) (hp : q ≠ pdfPath env n) :
    q ∉ (storeResultFS env fs n).files := by
  unfold storeResultFS
  intro hmem
  rw [FS.mem_files_write] at hmem
  rcases hmem with ⟨hmem, _⟩ | he
  · rw [FS.mem_files_write] at hmem
    rcases hmem with ⟨hmem, _⟩ | he
    · rw [FS.mem_files_write] at hmem
      rcases hmem with ⟨hmem, _⟩ | he
      · rw [FS.files_mkdirParents] at hmem
        exact hq hmem
      · exact hr he
    · exact hb he
  · exact hp he

/-! ### Behaviour of the submit-retry loop and the per-order body -/

/-- While the banner stays visible, every iteration of the loop re-clicks
submit; the loop never exits within any amount of fuel. -/
theorem submitRetryLoop_always_visible (visible : Nat → Bool)
    (h : ∀ k, visible k = true) :
    ∀ fuel k, submitRetryLoop visible k fuel =
      (List.replicate fuel submit_order, false) := by
  intro fuel
  induction fuel with
  | zero => intro k; rfl
  | succ m ih =>
    intro k
    unfold submitRetryLoop
    rw [h k, if_pos rfl, ih (k + 1)]
    simp [List.replicate_succ]

theorem processOrder_ok (env : Option String) (pg : Page) (fuel : Nat)
    (fs : FS) (o : Order) (h1 : pg.hasElement "#receipt" = true)
    (h2 : pg.hasElement "#robot-preview-image" = true)
    (h3 : pg.screenshotWrites = true)
    (hc : clearsWithin pg.banner fuel = true) :
    processOrder env pg fuel fs o =
      (storeResultFS env fs o.order_number,
       close_annoying_modal pg ++ fill_the_form o ++ [submit_order] ++
         (submitRetryLoop pg.banner 0 fuel).1 ++
         [.screenshotEl "#receipt" (receiptPath env o.order_number),
          .screenshotEl "#robot-preview-image" (robotPath env o.order_number)] ++
         [create_new_order],
       .ok ()) := by
  have hc' : (submitRetryLoop pg.banner 0 fuel).2 = true := hc
  unfold processOrder
  rw [store_receipt_ok env pg fs o.order_number h1 h2 h3]
  simp [hc', List.append_assoc]

theorem runOrders_ok (env : Option String) (pages : Nat → Page) (fuel : Nat)
    (hpg : ∀ i, (pages i).hasElement "#receipt" = true ∧
      (pages i).hasElement "#robot-preview-image" = true ∧
      (pages i).screenshotWrites = true)
    (hcl : ∀ i, clearsWithin (pages i).banner fuel = true) :
    ∀ (rows : List Order) (i : Nat) (fs : FS),
      (rows.map (fun o => o.order_number)).Nodup →
      (∀ o ∈ rows, pdfPath env o.order_number ∉ fs.files) →
      (runOrders env pages fuel rows i fs).2.2 = .ok () ∧
      (runOrders env pages fuel rows i fs).1.filesUnder (ORDERS_DIR env) =
        fs.filesUnder (ORDERS_DIR env) ++
          rows.map (fun o => pdfPath env o.order_number) ∧
      (∀ q, q ∉ fs.files →
        (∀ o ∈ rows, q ≠ pdfPath env o.order_number ∧
          q ≠ receiptPath env o.order_number ∧
          q ≠ robotPath env o.order_number) →
        q ∉ (runOrders env pages fuel rows i fs).1.files) := by
  intro rows
  induction rows with
  | nil =>
    intro i fs _ _
    refine ⟨rfl, by simp [runOrders], ?_⟩
    intro q hq _
    simpa [runOrders] using hq
  | cons o rest ih =>
    intro i fs hnodup hfresh
    obtain ⟨p1, p2, p3⟩ := hpg i
    have hpo := processOrder_ok env (pages i) fuel fs o p1 p2 p3 (hcl i)
    have hnodup' : o.order_number ∉ rest.map (fun x => x.order_number) ∧
        (rest.map (fun x => x.order_number)).Nodup := by
      rw [List.map_cons] at hnodup
      exact List.nodup_cons.mp hnodup
    have hnum : ∀ o' ∈ rest, o'.order_number ≠ o.order_number := by
      intro o' ho' he
      exact hnodup'.1 (he ▸ List.mem_map_of_mem (fun x => x.order_number) ho')
    have hfresh' : ∀ o' ∈ rest,
        pdfPath env o'.order_number ∉ (storeResultFS env fs o.order_number).files := by
      intro o' ho'
      refine storeResultFS_files_mem env fs o.order_number _
        (hfresh o' (List.mem_cons_of_mem o ho'))
        (pdfPath_ne_receiptPath env _ _) (pdfPath_ne_robotPath env _ _) ?_
      intro he
      exact hnum o' ho' (pdfPath_inj he)
    have hrest := ih (i + 1) (storeResultFS env fs o.order_number)
      hnodup'.2 hfresh'
    have hred : runOrders env pages fuel (o :: rest) i fs =
        ((runOrders env pages fuel rest (i + 1)
            (storeResultFS env fs o.order_number)).1,
         (processOrder env (pages i) fuel fs o).2.1 ++
           (runOrders env pages fuel rest (i + 1)
             (storeResultFS env fs o.order_number)).2.1,
         (runOrders env pages fuel rest (i + 1)
           (storeResultFS env fs o.order_number)).2.2) := by
      conv_lhs => rw [runOrders]
      rw [hpo]
    refine ⟨?_, ?_, ?_⟩
    · rw [hred]
      exact hrest.1
    · rw [hred]
      have h2 := hrest.2.1
      rw [storeResultFS_filesUnder env fs o.order_number
        (hfresh o (List.mem_cons_self o rest))] at h2
      simpa [List.append_assoc] using h2
    · intro q hq hne
      rw [hred]
      refine hrest.2.2 q ?_ ?_
      · obtain ⟨hp, hr, hb⟩ := hne o (List.mem_cons_self o rest)
        exact storeResultFS_files_mem env fs o.order_number q hq hr hb hp
      · intro o' ho'
        exact hne o' (List.mem_cons_of_mem o ho')

/-! ### Claim theorems -/

/-- C1: the claim says `store_receipt_as_pdf` fails with `ValueError`
exactly when the `#receipt` element is absent.  In the code the guard
`if receipt_element := page.locator("#receipt")` tests Python truthiness of
a locator object, which is always truthy, so the `ValueError` branch is
unreachable for every page; a page lacking `#receipt` instead surfaces a
screenshot timeout.  This contradicts the function's own docstring
(`Raises: ValueError: If the receipt element is not found on the page.`). -/
theorem C1_valueError_branch_unreachable :
    (∀ (env : Option String) (pg : Page) (fs : FS) (n : String),
      (store_receipt_as_pdf env pg fs n).2.2 ≠ .error Err.valueError) ∧
    (store_receipt_as_pdf none
        { modalVisible := false, hasElement := fun _ => false,
          screenshotWrites := true, banner := fun _ => false }
        FS.empty "1").2.2 = .error (Err.timeoutError "#receipt") := by
  constructor
  · intro env pg fs n
    unfold store_receipt_as_pdf screenshot_robot screenshotLocator
    simp only [pyTruthy, if_true]
    by_cases h1 : pg.hasElement "#receipt" = true
    · simp only [h1, if_true]
      by_cases h2 : pg.hasElement "#robot-preview-image" = true
      · simp only [h2, if_true]
        split <;> split <;> simp
      · simp only [h2, Bool.false_eq_true, if_false]
        simp [Bool.not_eq_true] at h2
        simp [h2]
    · simp only [Bool.not_eq_true] at h1
      simp [h1]
  · rfl

/-- C3: while the error banner stays visible the driver only re-clicks
submit — for every amount of fuel the loop neither exits nor reaches the
receipt-capture step (no screenshot event is emitted and the filesystem is
untouched); there is no attempt bound. -/
theorem C3_retry_unbounded (pg : Page) (h : ∀ k, pg.banner k = true)
    (env : Option String) (fuel : Nat) (fs : FS) (o : Order) :
    processOrder env pg fuel fs o =
      (fs, close_annoying_modal pg ++ fill_the_form o ++ [submit_order] ++
        List.replicate fuel submit_order, .error Err.retryLoopHungForever) ∧
    (∀ sel p, UIEvent.screenshotEl sel p ∉ (processOrder env pg fuel fs o).2.1) := by
  have hloop := submitRetryLoop_always_visible pg.banner h fuel 0
  have heq : processOrder env pg fuel fs o =
      (fs, close_annoying_modal pg ++ fill_the_form o ++ [submit_order] ++
        List.replicate fuel submit_order, .error Err.retryLoopHungForever) := by
    unfold processOrder
    rw [hloop]
    simp
  refine ⟨heq, ?_⟩
  intro sel p
  rw [heq]
  simp only [List.mem_append]
  rintro ((((hm | hm) | hm) | hm))
  · unfold close_annoying_modal at hm
    by_cases hv : pg.modalVisible = true <;> simp [hv] at hm
  · simp [fill_the_form, set_head, set_body, set_legs, set_address] at hm
  · simp [submit_order] at hm
  · have := List.eq_of_mem_replicate hm
    simp [submit_order] at this

/-- Page with a permanently visible `.alert-danger` banner. -/
def bannerStuckPage : Page :=
  { modalVisible := false, hasElement := fun _ => true,
    screenshotWrites := true, banner := fun _ => true }

def o1 : Order := ⟨"1", "1", "1", "3", "Test 1"⟩

theorem C3_retry_unbounded_witness :
    processOrder none bannerStuckPage 3 FS.empty o1 =
      (FS.empty, close_annoying_modal bannerStuckPage ++ fill_the_form o1 ++
        [submit_order] ++ List.replicate 3 submit_order,
        .error Err.retryLoopHungForever) ∧
    (∀ sel p, UIEvent.screenshotEl sel p ∉
      (processOrder none bannerStuckPage 3 FS.empty o1).2.1) :=
  C3_retry_unbounded bannerStuckPage (fun _ => rfl) none 3 FS.empty o1

/-- C6: if the receipt screenshot silently fails to land on disk (element
present, capture call returns, file absent), `store_receipt_as_pdf` raises
`FileNotFoundError` and writes no file at all — in particular no PDF. -/
theorem C6_missing_screenshot_file (env : Option String) (pg : Page)
    (fs : FS) (n : String) (h1 : pg.hasElement "#receipt" = true)
    (h2 : pg.hasElement "#robot-preview-image" = true)
    (h3 : pg.screenshotWrites = false)
    (h4 : fs.isFile (receiptPath env n) = false) :
    (store_receipt_as_pdf env pg fs n).2.2 = .error Err.fileNotFoundError ∧
    (store_receipt_as_pdf env pg fs n).1.entries = fs.entries := by
  have h4' : (fs.mkdirParents (OUTPUT_DIR env)).isFile
      (OUTPUT_DIR env ++ ["receipt_" ++ n ++ ".png"]) = false := by
    unfold FS.isFile at h4 ⊢
    rw [FS.files_mkdirParents]
    exact h4
  unfold store_receipt_as_pdf screenshot_robot
  simp only [screenshotLocator, pyTruthy, if_true, h1, h2]
  simp [h3, h4']
  exact FS.entries_mkdirParents fs _

/-- Page whose screenshot calls silently fail to write their file. -/
def silentFailPage : Page :=
  { modalVisible := false, hasElement := fun _ => true,
    screenshotWrites := false, banner := fun _ => false }

theorem C6_missing_screenshot_file_witness :
    (store_receipt_as_pdf none silentFailPage FS.empty "1").2.2 =
      .error Err.fileNotFoundError ∧
    (store_receipt_as_pdf none silentFailPage FS.empty "1").1.entries =
      FS.empty.entries :=
  C6_missing_screenshot_file none silentFailPage FS.empty "1" rfl rfl rfl
    (by decide)

/-- C7: on the success path `store_receipt_as_pdf` composes the PDF from
exactly `[receipt image, robot image]` in that order, writes it at
`orders/order_<n>.pdf` under the output root, and returns that path. -/
theorem C7_pdf_composed (env : Option String) (pg : Page) (fs : FS)
    (n : String) (h1 : pg.hasElement "#receipt" = true)
    (h2 : pg.hasElement "#robot-preview-image" = true)
    (h3 : pg.screenshotWrites = true) :
    (store_receipt_as_pdf env pg fs n).2.2 = .ok (pdfPath env n) ∧
    (store_receipt_as_pdf env pg fs n).1.lookup (pdfPath env n) =
      some (.pdfOf [receiptPath env n, robotPath env n]) ∧
    pdfPath env n = OUTPUT_DIR env ++ ["orders", "order_" ++ n ++ ".pdf"] := by
  rw [store_receipt_ok env pg fs n h1 h2 h3]
  refine ⟨rfl, ?_, by simp [pdfPath, ORDERS_DIR]⟩
  exact FS.lookup_write_self _ _ _

theorem C7_pdf_composed_witness :
    (store_receipt_as_pdf none defaultPage FS.empty "1").2.2 =
      .ok (pdfPath none "1") ∧
    (store_receipt_as_pdf none defaultPage FS.empty "1").1.lookup
        (pdfPath none "1") =
      some (.pdfOf [receiptPath none "1", robotPath none "1"]) ∧
    pdfPath none "1" = OUTPUT_DIR none ++ ["orders", "order_" ++ "1" ++ ".pdf"] :=
  C7_pdf_composed none defaultPage FS.empty "1" rfl rfl rfl

/-- C8: the modal-dismissal step clicks OK exactly when the modal header is
visible, is a silent no-op otherwise, and every order's trace starts with
it, before the form-fill. -/
theorem C8_modal_dismissal (pg : Page) :
    (UIEvent.clickButton "OK" ∈ close_annoying_modal pg ↔
      pg.modalVisible = true) ∧
    (pg.modalVisible = false → close_annoying_modal pg = []) ∧
    (∀ (env : Option String) (fuel : Nat) (fs : FS) (o : Order), ∃ rest,
      (processOrder env pg fuel fs o).2.1 =
        close_annoying_modal pg ++ (fill_the_form o ++ rest)) := by
  refine ⟨?_, ?_, ?_⟩
  · unfold close_annoying_modal
    by_cases h : pg.modalVisible = true <;> simp [h]
  · intro h
    simp [close_annoying_modal, h]
  · intro env fuel fs o
    unfold processOrder
    rcases hst : store_receipt_as_pdf env pg fs o.order_number with ⟨fs', tr', r⟩
    by_cases hl : (submitRetryLoop pg.banner 0 fuel).2 = true
    · rw [if_pos hl]
      cases r with
      | ok a =>
        exact ⟨[submit_order] ++ (submitRetryLoop pg.banner 0 fuel).1 ++
          (tr' ++ [create_new_order]), by simp⟩
      | error e =>
        exact ⟨[submit_order] ++ (submitRetryLoop pg.banner 0 fuel).1 ++ tr',
          by simp⟩
    · rw [if_neg hl]
      exact ⟨[submit_order] ++ (submitRetryLoop pg.banner 0 fuel).1, by simp⟩

/-- Page on which the modal header is never visible. -/
def noModalPage : Page :=
  { modalVisible := false, hasElement := fun _ => true,
    screenshotWrites := true, banner := fun _ => false }

theorem C8_modal_dismissal_witness :
    close_annoying_modal noModalPage = [] ∧
    (UIEvent.clickButton "OK" ∈ close_annoying_modal noModalPage ↔
      noModalPage.modalVisible = true) :=
  ⟨(C8_modal_dismissal noModalPage).2.1 rfl, (C8_modal_dismissal noModalPage).1⟩

/-- C9: the form driver emits exactly the four fill actions in the fixed
order head (selected by value), body (clicking the generated
`#id-body-<Body>` selector), legs, address — and the submit click comes
only after all four. -/
theorem C9_form_fill_order (o : Order) :
    fill_the_form o =
      [UIEvent.selectOpt "select#head.custom-select" o.head,
       UIEvent.clickSel ("#id-body-" ++ o.body),
       UIEvent.fillField "Enter the part number" o.legs,
       UIEvent.fillField "Shipping address" o.address] ∧
    submit_order ∉ fill_the_form o ∧
    (∀ (env : Option String) (pg : Page) (fuel : Nat) (fs : FS), ∃ rest,
      (processOrder env pg fuel fs o).2.1 =
        close_annoying_modal pg ++ fill_the_form o ++ (submit_order :: rest)) := by
  refine ⟨rfl, ?_, ?_⟩
  · simp [fill_the_form, submit_order, set_head, set_body, set_legs,
      set_address]
  · intro env pg fuel fs
    unfold processOrder
    rcases hst : store_receipt_as_pdf env pg fs o.order_number with ⟨fs', tr', r⟩
    by_cases hl : (submitRetryLoop pg.banner 0 fuel).2 = true
    · rw [if_pos hl]
      cases r with
      | ok a =>
        exact ⟨(submitRetryLoop pg.banner 0 fuel).1 ++
          (tr' ++ [create_new_order]), by simp⟩
      | error e =>
        exact ⟨(submitRetryLoop pg.banner 0 fuel).1 ++ tr', by simp⟩
    · rw [if_neg hl]
      exact ⟨(submitRetryLoop pg.banner 0 fuel).1, by simp⟩

theorem C9_form_fill_order_witness :
    fill_the_form o1 =
      [UIEvent.selectOpt "select#head.custom-select" o1.head,
       UIEvent.clickSel ("#id-body-" ++ o1.body),
       UIEvent.fillField "Enter the part number" o1.legs,
       UIEvent.fillField "Shipping address" o1.address] ∧
    submit_order ∉ fill_the_form o1 ∧
    (∀ (env : Option String) (pg : Page) (fuel : Nat) (fs : FS), ∃ rest,
      (processOrder env pg fuel fs o1).2.1 =
        close_annoying_modal pg ++ fill_the_form o1 ++ (submit_order :: rest)) :=
  C9_form_fill_order o1

/-- C10: `get_orders` writes the downloaded CSV to `CURDIR/orders.csv`
(the directory holding the source file) — the only file it creates — and,
as long as the configured output root is not an ancestor of that spot, the
output directory tree gains no file from the download step. -/
theorem C10_csv_into_code_dir (env : Option String) (status : Nat)
    (rows : List Order) (fs : FS)
    (hok : ¬ (400 ≤ status ∧ status < 600))
    (hout : ¬ (OUTPUT_DIR env <+: csvPath)) :
    (get_orders status rows fs).2 = .ok rows ∧
    (get_orders status rows fs).1.files =
      fs.files.filter (fun q => q ≠ csvPath) ++ [csvPath] ∧
    (get_orders status rows fs).1.filesUnder (OUTPUT_DIR env) =
      fs.filesUnder (OUTPUT_DIR env) := by
  unfold get_orders download_file
  rw [if_neg hok]
  refine ⟨rfl, ?_, ?_⟩
  · show ((fs.mkdir CURDIR).write csvPath .csvData).files = _
    rw [FS.files_write]
    rfl
  · show ((fs.mkdir CURDIR).write csvPath .csvData).filesUnder
        (OUTPUT_DIR env) = _
    rw [FS.filesUnder_write_not_under (fun hc => hout hc.1)]
    rfl

theorem C10_csv_into_code_dir_witness :
    (get_orders 200 [] FS.empty).2 = .ok [] ∧
    (get_orders 200 [] FS.empty).1.files =
      FS.empty.files.filter (fun q => q ≠ csvPath) ++ [csvPath] ∧
    (get_orders 200 [] FS.empty).1.filesUnder (OUTPUT_DIR none) =
      FS.empty.filesUnder (OUTPUT_DIR none) :=
  C10_csv_into_code_dir none 200 [] FS.empty (by decide) (by decide)

/-- C2 (amended): the archive step always zips the contents of the
hardcoded `./output/orders/` folder (not the configured per-order
directory) into `<output root>/receipts.zip`; the zipped folder coincides
with the per-order directory only when the output root is the default
`output`. -/
theorem C2_archive_fixed_source (env : Option String) (fs : FS) :
    (archive_receipts env fs).lookup (OUTPUT_DIR env ++ ["receipts.zip"]) =
      some (.zipOf (fs.filesUnder (pathOf "./output/orders/"))) ∧
    (OUTPUT_DIR env = pathOf "output" →
      fs.filesUnder (pathOf "./output/orders/") =
        fs.filesUnder (ORDERS_DIR env)) := by
  constructor
  · exact FS.lookup_write_self _ _ _
  · intro h
    have hpa : pathOf "./output/orders/" = ORDERS_DIR env := by
      rw [ORDERS_DIR, h]
      decide
    rw [hpa]

theorem C2_archive_fixed_source_witness :
    ((archive_receipts none FS.empty).lookup
        (OUTPUT_DIR none ++ ["receipts.zip"]) =
      some (.zipOf (FS.empty.filesUnder (pathOf "./output/orders/")))) ∧
    (OUTPUT_DIR none = pathOf "output" →
      FS.empty.filesUnder (pathOf "./output/orders/") =
        FS.empty.filesUnder (ORDERS_DIR none)) :=
  C2_archive_fixed_source none FS.empty

/-- A filesystem holding one order PDF inside the per-order directory of a
custom (non-default) output root. -/
def fsCustomPdf : FS :=
  ⟨[(["custom", "orders", "order_1.pdf"], .pdfOf [])], []⟩

/-- C2 counterexample: with the output root set to `custom`, the file
`custom/orders/order_1.pdf` lies under the per-order output directory, yet
the archive written at `custom/receipts.zip` contains nothing — the claim
that the archive step compresses every file under the per-order directory
is false for this environment value. -/
theorem C2_counterexample :
    fsCustomPdf.filesUnder (ORDERS_DIR (some "custom")) =
      [["custom", "orders", "order_1.pdf"]] ∧
    (archive_receipts (some "custom") fsCustomPdf).lookup
        (OUTPUT_DIR (some "custom") ++ ["receipts.zip"]) =
      some (.zipOf []) := by
  decide

/-- C4 (amended): when the CSV download's HTTP status is 4xx/5xx, the error
propagates immediately (no retry), no browser event is emitted, no file is
created anywhere (in particular no CSV and nothing in the output tree);
the only output-directory content is the empty `orders` subdirectory tree
created unconditionally at import time, before the download. -/
theorem C4_download_failure_aborts (env : Option String) (rows : List Order)
    (pages : Nat → Page) (fuel : Nat) (status : Nat)
    (h : 400 ≤ status ∧ status < 600) :
    order_robots_from_RobotSpareBin env status rows pages fuel =
      (moduleInit env FS.empty, [], .error (.httpError status)) ∧
    (moduleInit env FS.empty).entries = [] := by
  constructor
  · simp only [order_robots_from_RobotSpareBin, get_orders, download_file,
      if_pos h]
  · exact FS.entries_mkdirParents FS.empty _

theorem C4_download_failure_aborts_witness :
    order_robots_from_RobotSpareBin none 500 [] (fun _ => defaultPage) 0 =
      (moduleInit none FS.empty, [], .error (.httpError 500)) ∧
    (moduleInit none FS.empty).entries = [] :=
  C4_download_failure_aborts none [] (fun _ => defaultPage) 0 500 (by decide)

/-- C4 counterexample: on an HTTP 500 download the run still leaves content
inside the output root — the `orders` subdirectory created at import time —
so "no contents are created in the output directory" is false as stated. -/
theorem C4_counterexample :
    ORDERS_DIR none ∈
      (order_robots_from_RobotSpareBin none 500 [] (fun _ => defaultPage)
        0).1.dirs ∧
    OUTPUT_DIR none <+: ORDERS_DIR none ∧
    ORDERS_DIR none ≠ OUTPUT_DIR none := by
  decide

/-- C5 (amended): for every CSV input whose order numbers are distinct, a
run in which every submission eventually succeeds produces exactly one PDF
per order under the per-order directory, named `order_<n>.pdf` — exactly N
files for N unique order numbers — and, when the output root is the
default `output`, the `receipts.zip` archive contains exactly those PDFs.
(With a non-default output root the zip is built from the hardcoded
`./output/orders/` folder and misses them — see the counterexample.) -/
theorem C5_run_produces_pdfs (env : Option String) (status : Nat)
    (rows : List Order) (pages : Nat → Page) (fuel : Nat)
    (hstatus : ¬ (400 ≤ status ∧ status < 600))
    (hpg : ∀ i, (pages i).hasElement "#receipt" = true ∧
      (pages i).hasElement "#robot-preview-image" = true ∧
      (pages i).screenshotWrites = true)
    (hcl : ∀ i, clearsWithin (pages i).banner fuel = true)
    (hnodup : (rows.map (fun o => o.order_number)).Nodup) :
    (order_robots_from_RobotSpareBin env status rows pages fuel).2.2 =
      .ok () ∧
    (order_robots_from_RobotSpareBin env status rows pages fuel).1.filesUnder
        (ORDERS_DIR env) =
      rows.map (fun o => pdfPath env o.order_number) ∧
    ((order_robots_from_RobotSpareBin env status rows pages fuel).1.filesUnder
        (ORDERS_DIR env)).length = rows.length ∧
    (OUTPUT_DIR env = pathOf "output" →
      (order_robots_from_RobotSpareBin env status rows pages fuel).1.lookup
          (OUTPUT_DIR env ++ ["receipts.zip"]) =
        some (.zipOf (rows.map (fun o => pdfPath env o.order_number)))) := by
  have hfiles1 : (((moduleInit env FS.empty).mkdir CURDIR).write
      (CURDIR ++ [FILE_NAME]) FileContent.csvData).files =
      [CURDIR ++ [FILE_NAME]] := by
    rw [FS.files_write]
    have hmt : ((moduleInit env FS.empty).mkdir CURDIR).files = [] := by
      show ((moduleInit env FS.empty).mkdir CURDIR).entries.map Prod.fst = []
      rw [show ((moduleInit env FS.empty).mkdir CURDIR).entries =
          (moduleInit env FS.empty).entries from rfl,
        show (moduleInit env FS.empty).entries = FS.empty.entries from
          FS.entries_mkdirParents FS.empty _]
      rfl
    rw [hmt]
    rfl
  have hfresh : ∀ o ∈ rows, pdfPath env o.order_number ∉
      (((moduleInit env FS.empty).mkdir CURDIR).write
        (CURDIR ++ [FILE_NAME]) FileContent.csvData).files := by
    intro o _ hmem
    rw [hfiles1] at hmem
    simp only [List.mem_singleton] at hmem
    exact pdfPath_ne_csvPath env o.order_number hmem
  have hfu1 : (((moduleInit env FS.empty).mkdir CURDIR).write
      (CURDIR ++ [FILE_NAME]) FileContent.csvData).filesUnder
      (ORDERS_DIR env) = [] := by
    unfold FS.filesUnder
    rw [hfiles1]
    have hcond : ((ORDERS_DIR env).isPrefixOf (CURDIR ++ [FILE_NAME]) &&
        (CURDIR ++ [FILE_NAME]) != ORDERS_DIR env) = false := by
      by_cases hb : ((ORDERS_DIR env).isPrefixOf (CURDIR ++ [FILE_NAME]) &&
          (CURDIR ++ [FILE_NAME]) != ORDERS_DIR env) = true
      · exact absurd ((underCond_iff _ _).mp hb)
          (orders_dir_not_prefix_csv env)
      · exact Bool.eq_false_iff.mpr hb
    simp [List.filter_cons, hcond]
  obtain ⟨hok, hfu2, _⟩ := runOrders_ok env pages fuel hpg hcl rows 0
    (((moduleInit env FS.empty).mkdir CURDIR).write
      (CURDIR ++ [FILE_NAME]) FileContent.csvData) hnodup hfresh
  have hr : runOrders env pages fuel rows 0
      (((moduleInit env FS.empty).mkdir CURDIR).write
        (CURDIR ++ [FILE_NAME]) FileContent.csvData) =
      ((runOrders env pages fuel rows 0
          (((moduleInit env FS.empty).mkdir CURDIR).write
            (CURDIR ++ [FILE_NAME]) FileContent.csvData)).1,
       (runOrders env pages fuel rows 0
          (((moduleInit env FS.empty).mkdir CURDIR).write
            (CURDIR ++ [FILE_NAME]) FileContent.csvData)).2.1,
       Except.ok ()) := by
    rw [← hok]
  have hpipe : order_robots_from_RobotSpareBin env status rows pages fuel =
      (archive_receipts env
        (runOrders env pages fuel rows 0
          (((moduleInit env FS.empty).mkdir CURDIR).write
            (CURDIR ++ [FILE_NAME]) FileContent.csvData)).1,
       (open_robot_order_website ++ go_to_order_page) ++
         (runOrders env pages fuel rows 0
           (((moduleInit env FS.empty).mkdir CURDIR).write
             (CURDIR ++ [FILE_NAME]) FileContent.csvData)).2.1,
       Except.ok ()) := by
    simp only [order_robots_from_RobotSpareBin, get_orders, download_file,
      if_neg hstatus]
    rw [hr]
  have hzip_not_under : ¬ (ORDERS_DIR env <+:
      OUTPUT_DIR env ++ ["receipts.zip"] ∧
      OUTPUT_DIR env ++ ["receipts.zip"] ≠ ORDERS_DIR env) :=
    not_under_orders_of_single env "receipts.zip" (by decide)
  have hfinal : (archive_receipts env
      (runOrders env pages fuel rows 0
        (((moduleInit env FS.empty).mkdir CURDIR).write
          (CURDIR ++ [FILE_NAME]) FileContent.csvData)).1).filesUnder
      (ORDERS_DIR env) =
      rows.map (fun o => pdfPath env o.order_number) := by
    unfold archive_receipts
    rw [FS.filesUnder_write_not_under hzip_not_under, hfu2, hfu1]
    rfl
  refine ⟨?_, ?_, ?_, ?_⟩
  · rw [hpipe]
  · rw [hpipe]
    exact hfinal
  · rw [hpipe, hfinal]
    exact List.length_map rows _
  · intro h
    rw [hpipe]
    show (archive_receipts env _).lookup _ = _
    unfold archive_receipts
    rw [FS.lookup_write_self]
    have hpa : pathOf "./output/orders/" = ORDERS_DIR env := by
      rw [ORDERS_DIR, h]
      decide
    rw [hpa, hfu2, hfu1]
    rfl

theorem C5_run_produces_pdfs_witness :
    (order_robots_from_RobotSpareBin none 200 [o1]
      (fun _ => defaultPage) 1).2.2 = .ok () ∧
    (order_robots_from_RobotSpareBin none 200 [o1]
      (fun _ => defaultPage) 1).1.filesUnder (ORDERS_DIR none) =
      [o1].map (fun o => pdfPath none o.order_number) ∧
    ((order_robots_from_RobotSpareBin none 200 [o1]
      (fun _ => defaultPage) 1).1.filesUnder (ORDERS_DIR none)).length =
      [o1].length ∧
    (OUTPUT_DIR none = pathOf "output" →
      (order_robots_from_RobotSpareBin none 200 [o1]
        (fun _ => defaultPage) 1).1.lookup
          (OUTPUT_DIR none ++ ["receipts.zip"]) =
        some (.zipOf ([o1].map (fun o => pdfPath none o.order_number)))) :=
  C5_run_produces_pdfs none 200 [o1] (fun _ => defaultPage) 1 (by decide)
    (fun _ => ⟨rfl, rfl, rfl⟩) (fun _ => rfl) (by simp)

/-- C5 counterexample: with the output root set to `custom`, a fully
successful one-order run produces the PDF `custom/orders/order_1.pdf`
under the per-order directory, yet `custom/receipts.zip` is an empty
archive — the claimed "receipts.zip containing all of them" fails. -/
theorem C5_counterexample :
    (order_robots_from_RobotSpareBin (some "custom") 200 [o1]
      (fun _ => defaultPage) 1).2.2 = .ok () ∧
    (order_robots_from_RobotSpareBin (some "custom") 200 [o1]
      (fun _ => defaultPage) 1).1.filesUnder (ORDERS_DIR (some "custom")) =
      [pdfPath (some "custom") "1"] ∧
    (order_robots_from_RobotSpareBin (some "custom") 200 [o1]
      (fun _ => defaultPage) 1).1.lookup
        (OUTPUT_DIR (some "custom") ++ ["receipts.zip"]) =
      some (.zipOf []) :=
  ⟨rfl, by decide, by decide⟩
